import Mathlib

/-!
Verification of the AION system agent (`systemagent/systemagent.py`, v1.7.0).

This file gives a shallow embedding of the agent's data model and operations:
the configuration schema and validator, the per-domain diagnostic checks and
their aggregation, the self-healing orchestrator, and the subprocess wrapper.
Machine-level effects (psutil sampling, sockets, subprocesses, the filesystem)
are supplied through explicit environment records holding the values the
corresponding call would return; all decision logic is translated from the
source.  Python numbers are modelled as exact rationals (`ℚ`); float rounding
in log strings (`round(l, 2)`) is not modelled because no decision reads it.
-/

set_option linter.unusedVariables false
set_option linter.unnecessarySeqFocus false

/- Batteries marks `Rat.add`/`sub`/`mul`/`inv`/`ofScientific` `@[irreducible]`,
which blocks `decide`'s evaluation of concrete rational arithmetic; restore
the default transparency for this file's concrete-input evaluations. -/
attribute [local semireducible] Rat.add Rat.sub Rat.mul Rat.inv Rat.ofScientific

/-! ## Severity scale and `HealthCheckResult`

Source lines 329-336: `_create_health_result` and `_add_issue`.  Statuses are
the strings `"NOMINAL" < "WARNING" < "CRITICAL" < "ERROR"`; `_add_issue` maps
them through `sev_map = {"NOMINAL":0, "WARNING":1, "CRITICAL":2, "ERROR":3}`
with `dict.get`'s default `0` for any other string. -/

/-- Issue values attached by the diagnostics: a number (`s["percent"]`,
zombie counts, ...), the in/out dict used by `NET_ERRORS`/`NET_DROPS`
(whose entries come from `counters.get(...)` and may be `None`), or the
sensor list attached by `HIGH_TEMP`. -/
inductive IVal where
  | num (q : ℚ)
  | dictv (l : List (String × Option ℚ))
  | listv (l : List (String × ℚ))
  deriving DecidableEq, Repr

/-- One diagnostic issue: `{"type": ..., "value": ..., "description": ...}`
(source line 333). -/
structure Issue where
  type : String
  value : IVal
  description : String
  deriving DecidableEq, Repr

/-- A `HealthCheckResult`: `{"status": ..., "issues": [...]}` (source line 330). -/
structure Health where
  status : String
  issues : List Issue
  deriving DecidableEq, Repr

/-- `_create_health_result()` with its default arguments (source line 329-330). -/
def create_health_result : Health := { status := "NOMINAL", issues := [] }

/-- The numeric severity scale of `_add_issue` (source line 334):
`sev_map = {"NOMINAL":0, "WARNING":1, "CRITICAL":2, "ERROR":3}`, looked up with
`dict.get(x, 0)` so every other string maps to 0. -/
def sevMap (s : String) : Nat :=
  if s = "WARNING" then 1
  else if s = "CRITICAL" then 2
  else if s = "ERROR" then 3
  else 0

/-- `_add_issue` (source lines 332-336): append the issue, then raise the
status to `sev` iff `sev_map.get(sev,0) > sev_map.get(current,0)`. -/
def add_issue (h : Health) (ty : String) (v : IVal) (desc : String) (sev : String) : Health :=
  if sevMap h.status < sevMap sev then { status := sev, issues := h.issues ++ [⟨ty, v, desc⟩] }
  else { status := h.status, issues := h.issues ++ [⟨ty, v, desc⟩] }

theorem add_issue_status (h : Health) (ty : String) (v : IVal) (desc : String) (sev : String) :
    (add_issue h ty v desc sev).status = sev ∨ (add_issue h ty v desc sev).status = h.status := by
  unfold add_issue
  split
  · exact Or.inl rfl
  · exact Or.inr rfl

theorem add_issue_status_mem (h : Health) (ty : String) (v : IVal) (desc : String) (sev : String)
    (S : List String) (h1 : h.status ∈ S) (h2 : sev ∈ S) :
    (add_issue h ty v desc sev).status ∈ S := by
  rcases add_issue_status h ty v desc sev with heq | heq <;> rw [heq] <;> assumption

/-- C9: For every HealthCheckResult and every issue appended to it via
`_add_issue` (with any severity string), the resulting status is greater than
or equal — on the `sev_map` severity scale `NOMINAL < WARNING < CRITICAL <
ERROR` — to the status before the append: appending an issue may raise
severity, never lower it. -/
theorem add_issue_severity_monotone (h : Health) (ty : String) (v : IVal)
    (desc : String) (sev : String) :
    sevMap h.status ≤ sevMap (add_issue h ty v desc sev).status := by
  unfold add_issue
  split
  · next hlt => exact Nat.le_of_lt hlt
  · exact Nat.le_refl _

/-! ## Validated configuration (typed view)

The typed view of the validated configuration used by the diagnostics and the
self-healing orchestrator.  Fields mirror the keys of `CONFIG_SCHEMA` that the
embedded functions read (source lines 37-77); the validator itself is embedded
separately below over raw JSON-like values.  Numeric fields are `ℚ`
(`self_heal_cpu_kill_limit` is a non-negative int, schema `min: 0`, so `Nat`;
the two `max_age_days` fields are ints, schema `min: 1`, kept as `Int` since
only their decimal string is used). -/

structure Config where
  monitor_interval : ℚ
  cpu_threshold : ℚ
  memory_threshold : ℚ
  disk_threshold : ℚ
  swap_threshold : ℚ
  zombie_threshold : ℚ
  temp_alert_threshold : ℚ
  network_connectivity_host : String
  network_connectivity_port : Int
  network_connectivity_timeout : Int
  self_healing_enabled : Bool
  self_heal_cpu_enabled : Bool
  self_heal_cpu_threshold : ℚ
  self_heal_cpu_kill_limit : Nat
  self_heal_cpu_exclude_procs : List String
  self_heal_memory_enabled : Bool
  self_heal_memory_clear_caches : Bool
  self_heal_processes_enabled : Bool
  self_heal_processes_cleanup_zombies : Bool
  self_heal_disk_enabled : Bool
  self_heal_disk_log_path : String
  self_heal_disk_log_max_age_days : Int
  self_heal_disk_tmp_path : String
  self_heal_disk_tmp_max_age_days : Int
  self_heal_network_enabled : Bool
  self_heal_network_service_names : List String
  deriving DecidableEq, Repr

/-- The typed view of the defaults dict of `_load_and_validate_config`
(source lines 143-156), restricted to the fields above. -/
def default_config : Config :=
  { monitor_interval := 60
    cpu_threshold := 85
    memory_threshold := 90
    disk_threshold := 85
    swap_threshold := 75
    zombie_threshold := 10
    temp_alert_threshold := 80
    network_connectivity_host := "8.8.8.8"
    network_connectivity_port := 53
    network_connectivity_timeout := 3
    self_healing_enabled := true
    self_heal_cpu_enabled := false
    self_heal_cpu_threshold := 95
    self_heal_cpu_kill_limit := 2
    self_heal_cpu_exclude_procs :=
      ["systemd", "kthreadd", "sshd", "rsyslogd", "journald", "dbus-daemon", "login",
       "agetty", "containerd", "dockerd", "kubelet", "supervisord", "python",
       "aion_system_agent", "ollama"]
    self_heal_memory_enabled := true
    self_heal_memory_clear_caches := true
    self_heal_processes_enabled := true
    self_heal_processes_cleanup_zombies := true
    self_heal_disk_enabled := true
    self_heal_disk_log_path := "/var/log"
    self_heal_disk_log_max_age_days := 30
    self_heal_disk_tmp_path := "/tmp"
    self_heal_disk_tmp_max_age_days := 7
    self_heal_network_enabled := false
    self_heal_network_service_names := ["networking", "NetworkManager", "systemd-networkd"] }

/-! ## System state snapshot

The sub-dicts of the state dict that the diagnostic checks read, with `Option`
for keys accessed through `dict.get`.  `get_system_state` (source lines
282-301) also stores fields the diagnostics never read (gb totals, io
counters, per-mode cpu percents, `timestamp`, `uptime_seconds`); they are
omitted here because no embedded decision reads them.  A present-but-empty
sub-dict (which `if not s` would also treat as missing) is not representable;
`get_system_state` never produces one. -/

/-- `state["cpu"]`: `load_avg` is the 3-tuple `os.getloadavg()`; the source
reads `s.get("load_avg_1m_5m_15m", [0])[0]`, i.e. the first component. -/
structure CpuS where
  percent : Option ℚ
  cores_logical : Option ℚ
  load_avg : Option (ℚ × ℚ × ℚ)
  deriving DecidableEq, Repr

structure MemS where
  virtual_percent : Option ℚ
  swap_percent : Option ℚ
  deriving DecidableEq, Repr

structure DiskS where
  percent : Option ℚ
  path : Option String
  deriving DecidableEq, Repr

structure ProcS where
  total : Option ℚ
  zombie : Option ℚ
  deriving DecidableEq, Repr

/-- The in/out/err/drop counters dict `network_counters`, read with
`counters.get(..., 0)`. -/
structure NetCounters where
  errin : Option ℚ
  errout : Option ℚ
  dropin : Option ℚ
  dropout : Option ℚ
  deriving DecidableEq, Repr

/-- A hypothetical `state["network"]` value (never produced by
`get_system_state`); `_diagnose_network` reads `s.get("network_counters", {})`
from it. -/
structure NetS where
  network_counters : Option NetCounters
  deriving DecidableEq, Repr

/-- A hypothetical `state["temperature"]` value: a sensor-name → °C dict. -/
def TempS := List (String × ℚ)
deriving instance DecidableEq, Repr for TempS

/-- The six lookups `state.get(key)` that `diagnose_system` performs
(source line 320), bundled as one record. -/
structure StateDict where
  cpu : Option CpuS
  memory : Option MemS
  disk : Option DiskS
  processes : Option ProcS
  network : Option NetS
  temperature : Option TempS
  deriving DecidableEq, Repr

/-- Results of the machine-facing calls inside the diagnostic checks:
`net_probe = none` means `socket.create_connection` succeeded, `some ename`
means it raised an exception of type named `ename`; `has_sensors` is
`hasattr(psutil, "sensors_temperatures")`. -/
structure DiagEnv where
  net_probe : Option String
  has_sensors : Bool

/-! ## The six domain checks (source lines 339-351)

Each is a total function: on the snapshots `get_system_state` can produce,
no branch of the Python bodies can raise.  (The only divergent corner:
`s["percent"]`-style indexing after `s.get("percent",0) > t` succeeds can
raise only when the key is missing and the threshold is negative; every
min-bounded threshold of a validated config is ≥ 0, and the embedding uses
`getD 0` there, which agrees on all other inputs.) -/

/-- `_diagnose_cpu` (source line 339). -/
def diagnose_cpu (cfg : Config) (s : Option CpuS) : Health :=
  let h := create_health_result
  let t := cfg.cpu_threshold
  match s with
  | Option.none => add_issue h "MISSING" (.num 0) "CPU data" "ERROR"
  | some s =>
    -- if s.get("percent",0)>t: h=add_issue(h,"HIGH_CPU",s["percent"],f"> {t}%","CRITICAL")
    let h := if s.percent.getD 0 > t then
        add_issue h "HIGH_CPU" (.num (s.percent.getD 0)) (s!"> {t}%") "CRITICAL"
      else h
    -- c=s.get("cores_logical"); l=s.get("load_avg_1m_5m_15m",[0])[0]
    let l : ℚ := match s.load_avg with | some la => la.1 | Option.none => 0
    -- if c and l>c*1.5: ... ("if c" is false for None and for 0; round(l,2) kept as l)
    let h := match s.cores_logical with
      | some c =>
          if c ≠ 0 ∧ l > c * 1.5 then
            add_issue h "HIGH_LOAD" (.num l) "Load > 1.5x cores" "WARNING"
          else h
      | Option.none => h
    h

/-- `_diagnose_memory` (source line 340). -/
def diagnose_memory (cfg : Config) (s : Option MemS) : Health :=
  let h := create_health_result
  let vt := cfg.memory_threshold
  let st := cfg.swap_threshold
  match s with
  | Option.none => add_issue h "MISSING" (.num 0) "Mem data" "ERROR"
  | some s =>
    let h := if s.virtual_percent.getD 0 > vt then
        add_issue h "HIGH_MEM" (.num (s.virtual_percent.getD 0)) (s!"> {vt}%") "CRITICAL"
      else h
    let h := if s.swap_percent.getD 0 > st then
        add_issue h "HIGH_SWAP" (.num (s.swap_percent.getD 0)) (s!"> {st}%") "WARNING"
      else h
    h

/-- `_diagnose_disk` (source line 341). -/
def diagnose_disk (cfg : Config) (s : Option DiskS) : Health :=
  let h := create_health_result
  let t := cfg.disk_threshold
  match s with
  | Option.none => add_issue h "MISSING" (.num 0) "Disk data" "ERROR"
  | some s =>
    if s.percent.getD 0 > t then
      let p := s.path.getD "?"
      add_issue h "LOW_DISK" (.num (s.percent.getD 0))
        ("Disk \x27" ++ p ++ s!"\x27 > {t}%") "CRITICAL"
    else h

/-- `_diagnose_processes` (source line 342). -/
def diagnose_processes (cfg : Config) (s : Option ProcS) : Health :=
  let h := create_health_result
  let t := cfg.zombie_threshold
  match s with
  | Option.none => add_issue h "MISSING" (.num 0) "Proc data" "ERROR"
  | some s =>
    if s.zombie.getD 0 > t then
      add_issue h "ZOMBIES" (.num (s.zombie.getD 0)) (s!"> {t} zombies") "WARNING"
    else h

/-- `_diagnose_network` (source lines 343-350).  Note the source tests
`if s is None` here (not `if not s`), and returns before the socket probe. -/
def diagnose_network (cfg : Config) (env : DiagEnv) (s : Option NetS) : Health :=
  let h := create_health_result
  match s with
  | Option.none => add_issue h "MISSING" (.num 0) "Net data(Collection Error)" "ERROR"
  | some s =>
    let ch := cfg.network_connectivity_host
    let cp := cfg.network_connectivity_port
    let h := match env.net_probe with
      | Option.none => h
      | some ename =>
          add_issue h "NET_CONNECT" (.num 0) (s!"No reach {ch}:{cp} ({ename})") "CRITICAL"
    let counters := s.network_counters.getD ⟨Option.none, Option.none, Option.none, Option.none⟩
    let err_thresh : ℚ := 100
    let drop_thresh : ℚ := 1000
    let h := if counters.errin.getD 0 > err_thresh ∨ counters.errout.getD 0 > err_thresh then
        add_issue h "NET_ERRORS" (.dictv [("in", counters.errin), ("out", counters.errout)])
          "High NIC errors" "WARNING"
      else h
    let h := if counters.dropin.getD 0 > drop_thresh ∨ counters.dropout.getD 0 > drop_thresh then
        add_issue h "NET_DROPS" (.dictv [("in", counters.dropin), ("out", counters.dropout)])
          "High NIC drops" "WARNING"
      else h
    h

/-- `_diagnose_temperature` (source line 351): `None` → ERROR; empty dict with
sensors supported → WARNING; empty dict otherwise → NOMINAL; else flag
sensors above threshold. -/
def diagnose_temperature (cfg : Config) (env : DiagEnv) (s : Option TempS) : Health :=
  let h := create_health_result
  let t := cfg.temp_alert_threshold
  match s with
  | Option.none => add_issue h "MISSING" (.num 0) "Temp data(Collection Error)" "ERROR"
  | some l =>
    if l.isEmpty then
      if env.has_sensors then add_issue h "MISSING" (.num 0) "Temp read failed" "WARNING"
      else h
    else
      let ht := l.filter (fun p => p.2 > t)
      if ¬ ht.isEmpty then
        add_issue h "HIGH_TEMP" (.listv ht) (s!"Sensor(s) > {t}°C") "CRITICAL"
      else h

/-! ## Diagnostic aggregation (`diagnose_system`, source lines 314-327)

The source iterates the insertion-ordered dict
`{"cpu": ..., "memory": ..., "disk": ..., "processes": ..., "network": ...,
"temperature": ...}`; per domain it stores the check result, then:
ERROR → overall = ERROR and `break`; CRITICAL → overall = CRITICAL;
WARNING and overall still NOMINAL → overall = WARNING.  The `except` branch
(line 324) is unreachable here because the embedded checks are total. -/

def domain_order : List String :=
  ["cpu", "memory", "disk", "processes", "network", "temperature"]

/-- The six `func(state.get(key))` evaluations in iteration order. -/
def domainResults (cfg : Config) (env : DiagEnv) (st : StateDict) : List (String × Health) :=
  [("cpu", diagnose_cpu cfg st.cpu),
   ("memory", diagnose_memory cfg st.memory),
   ("disk", diagnose_disk cfg st.disk),
   ("processes", diagnose_processes cfg st.processes),
   ("network", diagnose_network cfg env st.network),
   ("temperature", diagnose_temperature cfg env st.temperature)]

/-- One iteration's update of `diagnostics["overall_status"]` for a
non-ERROR domain result (source lines 322-323). -/
def overall_step (overall : String) (h : Health) : String :=
  if h.status = "CRITICAL" then "CRITICAL"
  else if h.status = "WARNING" ∧ overall = "NOMINAL" then "WARNING"
  else overall

/-- The `for key, func in diag_funcs.items()` loop of `diagnose_system`
(source lines 319-323): returns the accumulated `checks` entries and the final
overall status; `break`s after storing an ERROR result. -/
def aggregate : List (String × Health) → String → List (String × Health) × String
  | [], overall => ([], overall)
  | (k, h) :: rest, overall =>
    if h.status = "ERROR" then ([(k, h)], "ERROR")
    else
      let r := aggregate rest (overall_step overall h)
      ((k, h) :: r.1, r.2)

structure Diagnostics where
  overall_status : String
  checks : List (String × Health)
  deriving Repr

/-- `diagnose_system` (source lines 314-327), starting from
`{"overall_status": "NOMINAL", "checks": {}}`.  The alerting side effect
(`_alert_if_needed`) is external and not modelled. -/
def diagnose_system (cfg : Config) (env : DiagEnv) (st : StateDict) : Diagnostics :=
  { overall_status := (aggregate (domainResults cfg env st) "NOMINAL").2
    checks := (aggregate (domainResults cfg env st) "NOMINAL").1 }

/-- Index of the first domain result whose status is `"ERROR"`. -/
def first_error_idx : List (String × Health) → Option Nat
  | [] => Option.none
  | p :: rest =>
      if p.2.status = "ERROR" then some 0 else (first_error_idx rest).map (· + 1)

/-- Severity maximum of two statuses, keeping the later status on a strict
increase (matching `overall_step` on the four status strings). -/
def pickStatus (acc : String) (p : String × Health) : String :=
  if sevMap acc < sevMap p.2.status then p.2.status else acc

/-- The maximum-severity status of a result list. -/
def max_status (rs : List (String × Health)) : String := rs.foldl pickStatus "NOMINAL"

theorem sevMap_pickStatus (acc : String) (p : String × Health) :
    sevMap (pickStatus acc p) = max (sevMap acc) (sevMap p.2.status) := by
  unfold pickStatus
  split <;> omega

theorem sevMap_foldl_pickStatus (rs : List (String × Health)) (acc : String) :
    sevMap (rs.foldl pickStatus acc) =
      (rs.map fun p => sevMap p.2.status).foldl max (sevMap acc) := by
  induction rs generalizing acc with
  | nil => rfl
  | cons p rest ih => simp [List.foldl_cons, ih, sevMap_pickStatus]

theorem overall_step_eq_pickStatus (acc : String) (k : String) (h : Health)
    (hacc : acc ∈ ["NOMINAL", "WARNING", "CRITICAL"])
    (hst : h.status ∈ ["NOMINAL", "WARNING", "CRITICAL"]) :
    overall_step acc h = pickStatus acc (k, h) := by
  simp only [List.mem_cons, List.not_mem_nil, or_false] at hst
  rcases hst with hs | hs | hs <;> fin_cases hacc <;>
    simp [overall_step, pickStatus, sevMap, hs]

theorem pickStatus_mem (acc : String) (p : String × Health)
    (hacc : acc ∈ ["NOMINAL", "WARNING", "CRITICAL"])
    (hst : p.2.status ∈ ["NOMINAL", "WARNING", "CRITICAL"]) :
    pickStatus acc p ∈ ["NOMINAL", "WARNING", "CRITICAL"] := by
  unfold pickStatus
  split <;> assumption

/-- Behaviour of the `diagnose_system` loop: short-circuit at the first ERROR
domain, otherwise visit everything and track the running maximum severity. -/
theorem aggregate_spec (rs : List (String × Health)) (acc : String)
    (hacc : acc ∈ ["NOMINAL", "WARNING", "CRITICAL"])
    (hrs : ∀ p ∈ rs, p.2.status ∈ ["NOMINAL", "WARNING", "CRITICAL", "ERROR"]) :
    (match first_error_idx rs with
     | some i => aggregate rs acc = (rs.take (i + 1), "ERROR")
     | Option.none => aggregate rs acc = (rs, rs.foldl pickStatus acc)) := by
  induction rs generalizing acc with
  | nil => simp [first_error_idx, aggregate]
  | cons p rest ih =>
    obtain ⟨k, h⟩ := p
    by_cases he : h.status = "ERROR"
    · simp [first_error_idx, aggregate, he]
    · have hst4 := hrs (k, h) (by simp)
      have hst3 : h.status ∈ ["NOMINAL", "WARNING", "CRITICAL"] := by
        simp only [List.mem_cons, List.not_mem_nil, or_false] at hst4 ⊢
        rcases hst4 with hs | hs | hs | hs <;> simp [hs] at he ⊢
      have hacc' := pickStatus_mem acc (k, h) hacc hst3
      have ih' := ih (pickStatus acc (k, h)) hacc' (fun q hq => hrs q (by simp [hq]))
      have hstep : overall_step acc h = pickStatus acc (k, h) :=
        overall_step_eq_pickStatus acc k h hacc hst3
      cases hidx : first_error_idx rest with
      | some j =>
          rw [hidx] at ih'
          simp [first_error_idx, aggregate, he, hidx, hstep, ih']
      | none =>
          rw [hidx] at ih'
          simp [first_error_idx, aggregate, he, hidx, hstep, ih']

theorem mem_S3_S4 {x : String} (h : x ∈ ["NOMINAL", "WARNING", "CRITICAL"]) :
    x ∈ ["NOMINAL", "WARNING", "CRITICAL", "ERROR"] := by
  simp only [List.mem_cons, List.not_mem_nil, or_false] at h ⊢
  tauto

theorem diagnose_cpu_some_status (cfg : Config) (s : CpuS) :
    (diagnose_cpu cfg (some s)).status ∈ ["NOMINAL", "WARNING", "CRITICAL"] := by
  unfold diagnose_cpu
  dsimp only
  repeat' split
  all_goals (repeat' apply add_issue_status_mem) <;> decide

theorem diagnose_memory_some_status (cfg : Config) (s : MemS) :
    (diagnose_memory cfg (some s)).status ∈ ["NOMINAL", "WARNING", "CRITICAL"] := by
  unfold diagnose_memory
  dsimp only
  repeat' split
  all_goals (repeat' apply add_issue_status_mem) <;> decide

theorem diagnose_disk_some_status (cfg : Config) (s : DiskS) :
    (diagnose_disk cfg (some s)).status ∈ ["NOMINAL", "WARNING", "CRITICAL"] := by
  unfold diagnose_disk
  dsimp only
  repeat' split
  all_goals (repeat' apply add_issue_status_mem) <;> decide

theorem diagnose_processes_some_status (cfg : Config) (s : ProcS) :
    (diagnose_processes cfg (some s)).status ∈ ["NOMINAL", "WARNING", "CRITICAL"] := by
  unfold diagnose_processes
  dsimp only
  repeat' split
  all_goals (repeat' apply add_issue_status_mem) <;> decide

theorem diagnose_network_some_status (cfg : Config) (env : DiagEnv) (s : NetS) :
    (diagnose_network cfg env (some s)).status ∈ ["NOMINAL", "WARNING", "CRITICAL"] := by
  unfold diagnose_network
  dsimp only
  repeat' split
  all_goals (repeat' apply add_issue_status_mem) <;> decide

theorem diagnose_temperature_some_status (cfg : Config) (env : DiagEnv) (s : TempS) :
    (diagnose_temperature cfg env (some s)).status ∈ ["NOMINAL", "WARNING", "CRITICAL"] := by
  unfold diagnose_temperature
  dsimp only
  repeat' split
  all_goals (repeat' apply add_issue_status_mem) <;> decide

theorem domainResults_status_S4 (cfg : Config) (env : DiagEnv) (st : StateDict) :
    ∀ p ∈ domainResults cfg env st,
      p.2.status ∈ ["NOMINAL", "WARNING", "CRITICAL", "ERROR"] := by
  intro p hp
  simp only [domainResults, List.mem_cons, List.not_mem_nil, or_false] at hp
  rcases hp with rfl | rfl | rfl | rfl | rfl | rfl
  · cases hs : st.cpu with
    | none => simp [show (diagnose_cpu cfg Option.none).status = "ERROR" from rfl]
    | some v => exact mem_S3_S4 (diagnose_cpu_some_status cfg v)
  · cases hs : st.memory with
    | none => simp [show (diagnose_memory cfg Option.none).status = "ERROR" from rfl]
    | some v => exact mem_S3_S4 (diagnose_memory_some_status cfg v)
  · cases hs : st.disk with
    | none => simp [show (diagnose_disk cfg Option.none).status = "ERROR" from rfl]
    | some v => exact mem_S3_S4 (diagnose_disk_some_status cfg v)
  · cases hs : st.processes with
    | none => simp [show (diagnose_processes cfg Option.none).status = "ERROR" from rfl]
    | some v => exact mem_S3_S4 (diagnose_processes_some_status cfg v)
  · cases hs : st.network with
    | none => simp [show (diagnose_network cfg env Option.none).status = "ERROR" from rfl]
    | some v => exact mem_S3_S4 (diagnose_network_some_status cfg env v)
  · cases hs : st.temperature with
    | none => simp [show (diagnose_temperature cfg env Option.none).status = "ERROR" from rfl]
    | some v => exact mem_S3_S4 (diagnose_temperature_some_status cfg env v)

/-- C1: For every snapshot and configuration, `diagnose_system` iterates the
six domains in the fixed order cpu, memory, disk, processes, network,
temperature; if any domain evaluates to ERROR, the overall status is ERROR and
the checks map holds exactly the domains up to and including that one — the
remaining domains are not evaluated that cycle, so a later domain's CRITICAL
cannot override the earlier ERROR; otherwise every domain is recorded and the
overall status is the maximum severity across all six domain results. -/
theorem diagnose_system_order_short_circuit_max (cfg : Config) (env : DiagEnv)
    (st : StateDict) :
    (domainResults cfg env st).map Prod.fst = domain_order ∧
    (match first_error_idx (domainResults cfg env st) with
     | some i =>
         (diagnose_system cfg env st).overall_status = "ERROR" ∧
         (diagnose_system cfg env st).checks = (domainResults cfg env st).take (i + 1)
     | Option.none =>
         (diagnose_system cfg env st).overall_status = max_status (domainResults cfg env st) ∧
         sevMap (diagnose_system cfg env st).overall_status =
           ((domainResults cfg env st).map fun p => sevMap p.2.status).foldl max 0 ∧
         (diagnose_system cfg env st).checks = domainResults cfg env st) := by
  refine ⟨rfl, ?_⟩
  have hagg := aggregate_spec (domainResults cfg env st) "NOMINAL" (by decide)
    (domainResults_status_S4 cfg env st)
  cases hidx : first_error_idx (domainResults cfg env st) with
  | some i =>
      rw [hidx] at hagg
      exact ⟨by simp [diagnose_system, hagg], by simp [diagnose_system, hagg]⟩
  | none =>
      rw [hidx] at hagg
      refine ⟨by simp [diagnose_system, hagg, max_status], ?_, by simp [diagnose_system, hagg]⟩
      have h2 := sevMap_foldl_pickStatus (domainResults cfg env st) "NOMINAL"
      rw [show sevMap "NOMINAL" = 0 from rfl] at h2
      simpa [diagnose_system, hagg, max_status] using h2

/-! ## `get_system_state` (source lines 282-301) and C4

On its exception-free path, `get_system_state` builds a dict with exactly the
keys listed in `get_system_state_keys` below.  Network data is stored under
`"network_rate_kBs"`, `"network_counters"` and `"network_connections"`, and
temperature under `"temperature_celsius"`; no branch ever writes a `"network"`
or a `"temperature"` key, so the lookups `state.get("network")` and
`state.get("temperature")` performed by `diagnose_system` return `None`. -/

/-- The dict keys assigned by the exception-free path of `get_system_state`
(source lines 285-298, in assignment order). -/
def get_system_state_keys : List String :=
  ["timestamp", "cpu", "memory", "disk", "processes", "network_rate_kBs",
   "network_counters", "network_connections", "temperature_celsius", "uptime_seconds"]

/-- The machine readings `get_system_state` samples (psutil / os calls),
restricted to the fields that flow into sub-dict entries the diagnostics
read; the remaining stored values (gb totals, io counters, rates,
connection counts, temperatures, uptime) never reach a diagnostic
decision.  `cores_logical` is `psutil.cpu_count()`, which may be `None`;
`loadavg` is the 3-tuple `os.getloadavg()`. -/
structure CollectInput where
  cpu_percent : ℚ
  cores_logical : Option ℚ
  loadavg : ℚ × ℚ × ℚ
  virtual_percent : ℚ
  swap_percent : ℚ
  disk_percent : ℚ
  pids_total : ℚ
  zombie_count : ℚ

/-- The six domain lookups `state.get(key)` on the snapshot produced by the
exception-free path of `get_system_state`: `"cpu"`, `"memory"`, `"disk"` and
`"processes"` are present (with `state["disk"]["path"] = "/"`, line 290);
`"network"` and `"temperature"` are not keys of the dict (see
`get_system_state_keys`), so those lookups are `None`. -/
def get_system_state_domains (inp : CollectInput) : StateDict :=
  { cpu := some { percent := some inp.cpu_percent
                  cores_logical := inp.cores_logical
                  load_avg := some inp.loadavg }
    memory := some { virtual_percent := some inp.virtual_percent
                     swap_percent := some inp.swap_percent }
    disk := some { percent := some inp.disk_percent, path := some "/" }
    processes := some { total := some inp.pids_total, zombie := some inp.zombie_count }
    network := Option.none
    temperature := Option.none }

/-- Python dict indexing `d[k]` on a string-keyed dict, as an `Option`. -/
def assocFind {α : Type _} : List (String × α) → String → Option α
  | [], _ => Option.none
  | (k', v) :: rest, k => if k' = k then some v else assocFind rest k

theorem ne_error_of_S3 {x : String} (h : x ∈ ["NOMINAL", "WARNING", "CRITICAL"]) :
    x ≠ "ERROR" := by
  simp only [List.mem_cons, List.not_mem_nil, or_false] at h
  rcases h with rfl | rfl | rfl <;> decide

/-- C4: For every snapshot produced by (the exception-free path of)
`get_system_state` — which stores network data under `network_rate_kBs`,
`network_counters` and `network_connections` and temperature under
`temperature_celsius` — `diagnose_system`'s network check receives no input
(the keys `"network"` and `"temperature"` are not in the state dict), so the
network domain is forced to ERROR with a missing-data issue, the overall
status is ERROR, and the temperature domain is never evaluated (absent from
the checks map) that cycle. -/
theorem get_system_state_network_missing_forces_error (cfg : Config) (env : DiagEnv)
    (inp : CollectInput) :
    "network" ∉ get_system_state_keys ∧
    "temperature" ∉ get_system_state_keys ∧
    (get_system_state_domains inp).network = Option.none ∧
    (diagnose_system cfg env (get_system_state_domains inp)).overall_status = "ERROR" ∧
    assocFind (diagnose_system cfg env (get_system_state_domains inp)).checks "network" =
      some { status := "ERROR"
             issues := [⟨"MISSING", .num 0, "Net data(Collection Error)"⟩] } ∧
    assocFind (diagnose_system cfg env (get_system_state_domains inp)).checks "temperature" =
      Option.none := by
  refine ⟨by decide, by decide, rfl, ?_⟩
  have hcpu := ne_error_of_S3 (diagnose_cpu_some_status cfg
    { percent := some inp.cpu_percent, cores_logical := inp.cores_logical,
      load_avg := some inp.loadavg })
  have hmem := ne_error_of_S3 (diagnose_memory_some_status cfg
    { virtual_percent := some inp.virtual_percent, swap_percent := some inp.swap_percent })
  have hdisk := ne_error_of_S3 (diagnose_disk_some_status cfg
    { percent := some inp.disk_percent, path := some "/" })
  have hproc := ne_error_of_S3 (diagnose_processes_some_status cfg
    { total := some inp.pids_total, zombie := some inp.zombie_count })
  have hnet : (diagnose_network cfg env Option.none).status = "ERROR" := rfl
  have hidx : first_error_idx
      (domainResults cfg env (get_system_state_domains inp)) = some 4 := by
    simp [first_error_idx, domainResults, get_system_state_domains,
      hcpu, hmem, hdisk, hproc, hnet]
  have hagg := aggregate_spec (domainResults cfg env (get_system_state_domains inp))
    "NOMINAL" (by decide)
    (domainResults_status_S4 cfg env (get_system_state_domains inp))
  rw [hidx] at hagg
  have hagg2 : aggregate (domainResults cfg env (get_system_state_domains inp)) "NOMINAL" =
      ((domainResults cfg env (get_system_state_domains inp)).take 5, "ERROR") := hagg
  have hchecks : (diagnose_system cfg env (get_system_state_domains inp)).checks =
      (domainResults cfg env (get_system_state_domains inp)).take 5 := by
    simp [diagnose_system, hagg2]
  refine ⟨by simp [diagnose_system, hagg2], ?_, ?_⟩
  · have hval : (diagnose_network cfg env Option.none) =
        { status := "ERROR",
          issues := [⟨"MISSING", .num 0, "Net data(Collection Error)"⟩] } := rfl
    rw [hchecks]
    simp [domainResults, get_system_state_domains, assocFind, hval]
  · rw [hchecks]
    simp [domainResults, get_system_state_domains, assocFind]

/-! ## Command executor (`_run_subprocess`, source lines 386-408)

The machine-facing pieces are an environment: `euid` (`os.geteuid()`),
`sudo_path` (`shutil.which('sudo')`), `which` (`shutil.which`), and the fate
of the launched child.  The function's own `try/except` catches
`FileNotFoundError`, `TimeoutExpired`, `CalledProcessError` and any other
`Exception`, so the only exception that can escape is the `IndexError` from
`command_list[0]` (line 393, before the `try`) on an empty argv; the return
type is `Except` to make that — and only that — escape representable. -/

/-- Fate of the `Popen`ed child: normal completion with an exit code and
captured stdout/stderr; a `TimeoutExpired` (the payload is what the post-kill
`process.communicate()` drains as stdout/stderr); a `FileNotFoundError`; or
any other exception (payload `str(e)`). -/
inductive ProcOutcome where
  | completes (rc : Int) (stdout stderr : String)
  | timesOut (drain_stdout drain_stderr : String)
  | fnf
  | exn (msg : String)
  deriving DecidableEq, Repr

structure ProcEnv where
  euid : Nat
  sudo_path : Option String
  which : String → Option String
  outcome : ProcOutcome

/-- Python truthiness of a `shutil.which` result: `None` and `""` are falsy. -/
def py_truthy_str : Option String → Bool
  | Option.none => false
  | some s => !(s == "")

/-- Python `str.strip()`: drop leading and trailing whitespace.  (Python also
strips `\x0b`/`\x0c`; no string handled here contains those.) -/
def py_strip (s : String) : String :=
  ⟨((s.data.dropWhile Char.isWhitespace).reverse.dropWhile Char.isWhitespace).reverse⟩

/-- `_run_subprocess` (source lines 386-408).  `Except.error` models an
exception escaping the function (only the pre-`try` `IndexError`);
`Except.ok (succeeded, combined_output)` models a normal return. -/
def run_subprocess (env : ProcEnv) (command_list : List String)
    (check use_sudo shell : Bool) (input_str : Option String) (timeout_sec : ℚ) :
    Except String (Bool × String) :=
  let go : List String → Except String (Bool × String) := fun cl =>
    match cl with
    | [] => Except.error "IndexError: list index out of range"  -- command_list[0], line 393
    | c0 :: rest =>
      let cmd_path := env.which c0
      -- if not cmd_path and not shell: return False, f"Command not found: ..."
      if ¬ py_truthy_str cmd_path ∧ ¬ shell then
        Except.ok (false, s!"Command not found: {c0}")
      else
        -- if not shell and cmd_path: command_list[0] = cmd_path
        let c0r := match cmd_path with
          | some p => if ¬ shell ∧ py_truthy_str cmd_path then p else c0
          | Option.none => c0
        match env.outcome with
        | .completes rc stdout stderr =>
            let combined := py_strip (py_strip stdout ++ "\n" ++ py_strip stderr)
            if rc = 0 then Except.ok (true, combined)
            else if check then
              -- line 403 raises CalledProcessError(rc, ..., stderr=stderr_output),
              -- which the function's own handler (line 407) catches:
              -- `return False, (e.stderr or '').strip()`
              Except.ok (false, py_strip stderr)
            else Except.ok (false, combined)
        | .timesOut dOut dErr =>
            -- line 406: process.kill(); _, stderr = process.communicate();
            -- the drained partial stdout is discarded
            Except.ok (false, "Cmd timed out. Stderr: " ++ py_strip dErr)
        | .fnf => Except.ok (false, s!"Cmd not found: {c0r}")
        | .exn msg => Except.ok (false, msg)
  -- if use_sudo and os.geteuid() != 0: prepend shutil.which('sudo') or fail closed
  if use_sudo ∧ env.euid ≠ 0 then
    match env.sudo_path with
    | Option.none => Except.ok (false, "sudo not found")
    | some sp => if sp = "" then Except.ok (false, "sudo not found") else go (sp :: command_list)
  else go command_list

/-- `_run_subprocess` as its callers see it: every self-healing call passes a
nonempty argv, so the `IndexError` case is unreachable there. -/
def run_subprocess_ok (env : ProcEnv) (command_list : List String)
    (check use_sudo shell : Bool) (input_str : Option String) (timeout_sec : ℚ) :
    Bool × String :=
  match run_subprocess env command_list check use_sudo shell input_str timeout_sec with
  | .ok r => r
  | .error e => (false, e)

/-- C7 (amended): with `check=True`, a zero exit code yields success with the
combined output; a non-zero exit code raises `CalledProcessError` internally,
which `_run_subprocess`'s own handler catches and converts into a soft
`(False, stripped stderr)` result returned to the caller — no exception
propagates. -/
theorem run_subprocess_check_nonzero_is_soft (env : ProcEnv) (c0 : String)
    (rest : List String) (input_str : Option String) (t : ℚ) (rc : Int)
    (out err : String)
    (hout : env.outcome = .completes rc out err)
    (hwhich : py_truthy_str (env.which c0) = true) :
    (rc = 0 → run_subprocess env (c0 :: rest) true false false input_str t =
        Except.ok (true, py_strip (py_strip out ++ "\n" ++ py_strip err))) ∧
    (rc ≠ 0 → run_subprocess env (c0 :: rest) true false false input_str t =
        Except.ok (false, py_strip err)) ∧
    (∀ e, run_subprocess env (c0 :: rest) true false false input_str t ≠
        Except.error e) := by
  unfold run_subprocess
  simp only [false_and, if_false, ite_false, Bool.false_eq_true, and_false]
  constructor
  · intro h0
    simp [hout, hwhich, h0]
  constructor
  · intro hne
    simp [hout, hwhich, hne]
  · intro e he
    by_cases h0 : rc = 0 <;> simp [hout, hwhich, h0] at he

/-- Concrete run refuting C7 as stated: with `checkExitCode` requested and a
child exiting 1, the executor returns the soft result
`(succeeded=false, stderr)` to the caller instead of propagating a
raised/fatal condition. -/
def envC7 : ProcEnv :=
  { euid := 1000, sudo_path := some "/usr/bin/sudo",
    which := fun _ => some "/bin/x", outcome := .completes 1 "out" "err1" }

theorem run_subprocess_check_returns_soft_result :
    run_subprocess envC7 ["x"] true false false Option.none 60 =
      Except.ok (false, "err1") ∧
    ∀ e, run_subprocess envC7 ["x"] true false false Option.none 60 ≠ Except.error e := by
  constructor
  · rfl
  · intro e he
    rw [show run_subprocess envC7 ["x"] true false false Option.none 60 =
      Except.ok (false, "err1") from rfl] at he
    exact Except.noConfusion he

/-- C8 (amended): when the child exceeds the timeout, the executor kills it
and returns `succeeded=false` with the message
`"Cmd timed out. Stderr: " ++ <drained stderr>`; the partial stdout drained
by the post-kill `communicate()` is discarded. -/
theorem run_subprocess_timeout_returns_failure (env : ProcEnv) (c0 : String)
    (rest : List String) (check : Bool) (input_str : Option String) (t : ℚ)
    (dOut dErr : String)
    (hout : env.outcome = .timesOut dOut dErr)
    (hwhich : py_truthy_str (env.which c0) = true) :
    run_subprocess env (c0 :: rest) check false false input_str t =
      Except.ok (false, "Cmd timed out. Stderr: " ++ py_strip dErr) := by
  unfold run_subprocess
  simp [hout, hwhich]

/-- A substring test (`needle` occurs contiguously in `hay`). -/
def strContainsSeq (needle hay : String) : Bool :=
  (List.range (hay.data.length + 1)).any (fun i => needle.data.isPrefixOf (hay.data.drop i))

/-- Concrete run refuting C8 as stated: a timed-out child whose captured
partial output is the stdout text `"PARTIALOUT"` (drained by the post-kill
`communicate()`) yields a failed result whose output does **not** contain that
partial output — only the drained stderr (here empty) is reported. -/
def envC8 : ProcEnv :=
  { euid := 1000, sudo_path := Option.none,
    which := fun _ => some "/bin/slow", outcome := .timesOut "PARTIALOUT" "" }

theorem run_subprocess_timeout_drops_partial_stdout :
    run_subprocess envC8 ["slow"] false false false Option.none 2 =
      Except.ok (false, "Cmd timed out. Stderr: ") ∧
    strContainsSeq "PARTIALOUT" "Cmd timed out. Stderr: " = false := by
  constructor
  · rfl
  · decide

/-! ## Self-healing (`perform_self_healing` and `_heal_*`, source lines 372-495)

The machine-facing pieces per cycle are bundled in `HealEnv`: the process
table snapshot `psutil.process_iter(...)` (`procs`), `time.time()` (`now`),
the zombie list of `_heal_processes`, `os.path.isdir` (`isdir`), and the
subprocess environment for each argv the orchestrator launches (`sub`). -/

/-- Python `str.lower()`. -/
def py_lower (s : String) : String := ⟨s.data.map Char.toLower⟩

/-- One entry of `psutil.process_iter(['pid','name','cpu_percent','username',
'create_time'])` as read by `_heal_cpu`. -/
structure ProcInfo where
  pid : Nat
  name : Option String
  cpu_percent : Option ℚ
  username : String
  create_time : ℚ
  deriving DecidableEq, Repr

structure HealEnv where
  procs : List ProcInfo
  now : ℚ
  zombies : List Nat
  isdir : String → Bool
  sub : List String → ProcEnv

/-- One entry of the `details` list of the disk action (source lines 463-477). -/
structure DiskDetail where
  path : String
  age_days : String
  success : Bool
  output : String
  deriving DecidableEq, Repr

/-- The healing-action records the `_heal_*` methods build.  The source's
`except`-rebound `FAILED` dicts are unreachable in the embedding (the bodies
are total), and keys the source adds only conditionally (`zombies_found`,
`sigchld_sent` on the no-zombie path) are carried with their absent-value
defaults. -/
inductive HealAction where
  | mitigateCpu (killed_pids : List Nat) (killed_count : Nat) (status : String)
  | clearMem (status : String) (details : String)
  | cleanupZombies (status : String) (zombies_found : List Nat) (sigchld_sent : Bool)
  | manageDisk (status : String) (details : List DiskDetail)
  | restartNet (status : String) (services_attempted : List String)
      (success_service : Option String) (last_error : String)
  deriving DecidableEq, Repr

def killed_pids_of : HealAction → List Nat
  | .mitigateCpu k _ _ => k
  | _ => []

/-- Stable insertion preserving descending `cpu_percent` order. -/
def insertCpuDesc (p : ProcInfo) : List ProcInfo → List ProcInfo
  | [] => [p]
  | q :: qs =>
      if p.cpu_percent.getD 0 ≥ q.cpu_percent.getD 0 then p :: q :: qs
      else q :: insertCpuDesc p qs

/-- `sorted(procs, key=lambda x: x.info['cpu_percent'], reverse=True)`
(source line 421). -/
def sortCpuDesc : List ProcInfo → List ProcInfo
  | [] => []
  | p :: ps => insertCpuDesc p (sortCpuDesc ps)

theorem mem_insertCpuDesc (x p : ProcInfo) (l : List ProcInfo) :
    x ∈ insertCpuDesc p l ↔ x = p ∨ x ∈ l := by
  induction l with
  | nil => simp [insertCpuDesc]
  | cons q qs ih =>
      unfold insertCpuDesc
      split <;> simp [ih] <;> tauto

theorem mem_sortCpuDesc (x : ProcInfo) (l : List ProcInfo) :
    x ∈ sortCpuDesc l ↔ x ∈ l := by
  induction l with
  | nil => simp [sortCpuDesc]
  | cons p ps ih => simp [sortCpuDesc, mem_insertCpuDesc, ih]

/-- The non-numeric cases would raise a `TypeError` in Python
(`dict`/`list` is not orderable against `float`); `_heal_cpu` only ever
compares the value of a `HIGH_CPU_USAGE` issue or the int `0` default. -/
def ival_lt (v : IVal) (t : ℚ) : Bool :=
  match v with
  | .num q => decide (q < t)
  | _ => false

/-- `(pinfo['name'] or 'unknown')` (source line 424): Python `or` falls back
to `'unknown'` for every falsy name, i.e. for `None` **and** for the empty
string. -/
def py_name_or_unknown : Option String → String
  | Option.none => "unknown"
  | some s => if s = "" then "unknown" else s

/-- The per-candidate termination condition of the `_heal_cpu` loop
(source line 425): cpu share above `cpu_threshold`, effective name
(lowercased `pinfo['name'] or 'unknown'`) not in the exclusion set, not owned
by root, alive longer than 10 seconds. -/
def heal_cpu_selects (cfg : Config) (now : ℚ) (exclude : List String) (p : ProcInfo) : Bool :=
  decide (p.cpu_percent.getD 0 > cfg.cpu_threshold) &&
  decide (py_lower (py_name_or_unknown p.name) ∉ exclude) &&
  !(p.username == "root") &&
  decide (now - p.create_time > 10)

/-- The `for proc in procs` loop of `_heal_cpu` (source lines 422-429):
stop once `killed_count >= limit`; for each selected candidate run
`sudo kill <pid>` and append the pid on success. -/
def heal_cpu_loop (cfg : Config) (henv : HealEnv) (exclude : List String) :
    List ProcInfo → List Nat → Nat → List Nat
  | [], killed, _ => killed
  | p :: rest, killed, killed_count =>
      if cfg.self_heal_cpu_kill_limit ≤ killed_count then killed
      else if heal_cpu_selects cfg henv.now exclude p then
        let r := run_subprocess_ok (henv.sub ["kill", toString p.pid])
          ["kill", toString p.pid] false true false Option.none 60
        if r.1 then heal_cpu_loop cfg henv exclude rest (killed ++ [p.pid]) (killed_count + 1)
        else heal_cpu_loop cfg henv exclude rest killed killed_count
      else heal_cpu_loop cfg henv exclude rest killed killed_count

/-- `_heal_cpu` (source lines 411-432).  Note the gate looks for an issue of
type `'HIGH_CPU_USAGE'` (line 414) with default `0`, and returns `None` when
that value is below `self_heal_cpu_threshold` (line 415). -/
def heal_cpu (cfg : Config) (henv : HealEnv) (cpu_diag : Health) : Option HealAction :=
  if ¬ cfg.self_heal_cpu_enabled then Option.none
  else
    let cpu_percent : IVal :=
      ((cpu_diag.issues.find? (fun i => i.type == "HIGH_CPU_USAGE")).map Issue.value).getD
        (.num 0)
    if ival_lt cpu_percent cfg.self_heal_cpu_threshold then Option.none
    else
      let exclude := cfg.self_heal_cpu_exclude_procs.map py_lower
      let procs := sortCpuDesc (henv.procs.filter (fun p => p.cpu_percent.isSome))
      let killed := heal_cpu_loop cfg henv exclude procs [] 0
      some (.mitigateCpu killed killed.length "ATTEMPTED")

/-- `_heal_memory` (source lines 434-440). -/
def heal_memory (cfg : Config) (henv : HealEnv) : Option HealAction :=
  if ¬ (cfg.self_heal_memory_enabled ∧ cfg.self_heal_memory_clear_caches) then Option.none
  else
    let cmd := ["sh", "-c", "sync && echo 3 > /proc/sys/vm/drop_caches"]
    let r := run_subprocess_ok (henv.sub cmd) cmd false true true Option.none 60
    some (.clearMem (if r.1 then "SUCCESS" else "FAILED")
      (if r.1 then "Caches dropped." else r.2))

/-- `_heal_processes` (source lines 442-456). -/
def heal_processes (cfg : Config) (henv : HealEnv) : Option HealAction :=
  if ¬ (cfg.self_heal_processes_enabled ∧ cfg.self_heal_processes_cleanup_zombies) then
    Option.none
  else if henv.zombies.isEmpty then some (.cleanupZombies "NO_ACTION_NEEDED" [] false)
  else
    let cmd := ["kill", "-s", "SIGCHLD", "1"]
    let r := run_subprocess_ok (henv.sub cmd) cmd false true false Option.none 60
    some (.cleanupZombies "SUCCESS" henv.zombies r.1)

/-- One `(path, age, type, time-field)` item of `_heal_disk`
(source lines 463-477). -/
def heal_disk_item (cfg : Config) (henv : HealEnv) (path : String) (age : Int)
    (ty tf : String) : DiskDetail :=
  if henv.isdir path then
    let cmd := ["find", path, "-type", "f", tf, "+" ++ toString age, "-print", "-delete"]
    let r := run_subprocess_ok (henv.sub cmd) cmd false true false Option.none 60
    { path := path, age_days := toString age, success := r.1,
      output := if r.1 then s!"Deleted old {ty} files found." else r.2 }
  else
    { path := path, age_days := toString age, success := false,
      output := "Path does not exist/skipped." }

/-- `_heal_disk` (source lines 458-480): two items (logs by mtime, tmp by
atime); overall `SUCCESS` only if both items succeeded, else
`PARTIAL_FAILURE`. -/
def heal_disk (cfg : Config) (henv : HealEnv) : Option HealAction :=
  if ¬ cfg.self_heal_disk_enabled then Option.none
  else
    let d1 := heal_disk_item cfg henv cfg.self_heal_disk_log_path
      cfg.self_heal_disk_log_max_age_days "log" "-mtime"
    let d2 := heal_disk_item cfg henv cfg.self_heal_disk_tmp_path
      cfg.self_heal_disk_tmp_max_age_days "tmp" "-atime"
    some (.manageDisk (if d1.success && d2.success then "SUCCESS" else "PARTIAL_FAILURE")
      [d1, d2])

/-- The service loop of `_heal_network` (source lines 490-494): first
successful restart wins; otherwise remember the last error. -/
def heal_network_loop (cfg : Config) (henv : HealEnv) :
    List String → List String → String → HealAction
  | [], attempted, lastErr => .restartNet "FAILED" attempted Option.none lastErr
  | svc :: rest, attempted, lastErr =>
      let cmd := ["systemctl", "restart", svc]
      let r := run_subprocess_ok (henv.sub cmd) cmd false true false Option.none 60
      if r.1 then .restartNet "SUCCESS" (attempted ++ [svc]) (some svc) lastErr
      else heal_network_loop cfg henv rest (attempted ++ [svc]) r.2

/-- `_heal_network` (source lines 482-495). -/
def heal_network (cfg : Config) (henv : HealEnv) : Option HealAction :=
  if ¬ cfg.self_heal_network_enabled then Option.none
  else if cfg.self_heal_network_service_names.isEmpty then Option.none
  else some (heal_network_loop cfg henv cfg.self_heal_network_service_names [] "")

/-- Python dict indexing `checks[k]`: raises `KeyError` on a missing key. -/
def py_checks_index (checks : List (String × Health)) (k : String) : Except String Health :=
  match assocFind checks k with
  | some h => Except.ok h
  | Option.none => Except.error ("KeyError: " ++ k)

/-- `perform_self_healing` (source lines 372-384): after the
`self_healing_enabled` gate, it indexes `checks["cpu"]`, `checks["memory"]`,
`checks["processes"]`, `checks["disk"]`, `checks["network"]` unconditionally
(each index is evaluated to test `!= "NOMINAL"`), appending the corresponding
`_heal_*` result for each non-NOMINAL domain, then drops the `None`s.
`Except.error` models a `KeyError` escaping to the caller. -/
def perform_self_healing (cfg : Config) (henv : HealEnv) (diagnostics : Diagnostics) :
    Except String (List HealAction) :=
  if ¬ cfg.self_healing_enabled then Except.ok []
  else
    let checks := diagnostics.checks
    match py_checks_index checks "cpu" with
    | .error e => .error e
    | .ok c_cpu =>
      let a1 := if c_cpu.status ≠ "NOMINAL" then [heal_cpu cfg henv c_cpu] else []
      match py_checks_index checks "memory" with
      | .error e => .error e
      | .ok c_mem =>
        let a2 := if c_mem.status ≠ "NOMINAL" then [heal_memory cfg henv] else []
        match py_checks_index checks "processes" with
        | .error e => .error e
        | .ok c_proc =>
          let a3 := if c_proc.status ≠ "NOMINAL" then [heal_processes cfg henv] else []
          match py_checks_index checks "disk" with
          | .error e => .error e
          | .ok c_disk =>
            let a4 := if c_disk.status ≠ "NOMINAL" then [heal_disk cfg henv] else []
            match py_checks_index checks "network" with
            | .error e => .error e
            | .ok c_net =>
              let a5 := if c_net.status ≠ "NOMINAL" then [heal_network cfg henv] else []
              Except.ok ((a1 ++ a2 ++ a3 ++ a4 ++ a5).filterMap id)

/-- Fate of the healing step of one `run()` cycle (source lines 551, 556):
skipped when overall status is NOMINAL; otherwise the
`perform_self_healing` call either completes or raises, and a raised
exception is caught by the loop's catch-all `except Exception` handler,
abandoning the cycle. -/
inductive HealStep where
  | skipped
  | done (actions : List HealAction)
  | abandoned (err : String)
  deriving Repr

def run_healing_step (cfg : Config) (henv : HealEnv) (d : Diagnostics) : HealStep :=
  if d.overall_status = "NOMINAL" then .skipped
  else
    match perform_self_healing cfg henv d with
    | .ok a => .done a
    | .error e => .abandoned e

/-! ## C3: the CPU-heal gate looks up an issue type that is never produced -/

def cfgC3 : Config := { default_config with self_heal_cpu_enabled := true }

/-- A snapshot cpu sub-dict with 99% usage (cpu_threshold 85,
self_heal_cpu_threshold 95). -/
def cpuS99 : CpuS := { percent := some 99, cores_logical := some 4, load_avg := some (1, 1, 1) }

/-- A process table with an obvious kill candidate, and a subprocess
environment in which every command succeeds. -/
def henvC3 : HealEnv :=
  { procs := [⟨901, some "stress", some 99, "bob", 0⟩]
    now := 100
    zombies := []
    isdir := fun _ => false
    sub := fun _ =>
      { euid := 1000, sudo_path := some "/usr/bin/sudo",
        which := fun _ => some "/usr/bin/kill", outcome := .completes 0 "" "" } }

/-- C3 (code bug): `_diagnose_cpu` records high-CPU issues under type
`'HIGH_CPU'`, but `_heal_cpu` looks up `'HIGH_CPU_USAGE'`; so even with CPU
self-healing enabled, a recorded high-CPU issue of value 99 above the
self-heal threshold 95, and a terminable CPU hog available, `_heal_cpu`
finds value 0, fails its threshold gate, and returns no action — it never
ranks processes or attempts terminations. -/
theorem heal_cpu_issue_type_mismatch_dead_gate :
    (diagnose_cpu cfgC3 (some cpuS99)).issues.map Issue.type = ["HIGH_CPU"] ∧
    cfgC3.self_heal_cpu_enabled = true ∧
    cfgC3.self_heal_cpu_threshold = 95 ∧
    (∃ i ∈ (diagnose_cpu cfgC3 (some cpuS99)).issues, i.value = .num 99) ∧
    heal_cpu cfgC3 henvC3 (diagnose_cpu cfgC3 (some cpuS99)) = Option.none := by
  refine ⟨by decide, by decide, by decide, by decide, by decide⟩

/-! ## C10: CPU mitigation never selects an excluded process -/

theorem heal_cpu_loop_killed_sources (cfg : Config) (henv : HealEnv) (exclude : List String) :
    ∀ (l : List ProcInfo) (killed0 : List Nat) (cnt : Nat) (pid : Nat),
      pid ∈ heal_cpu_loop cfg henv exclude l killed0 cnt →
      pid ∈ killed0 ∨
        ∃ p, p ∈ l ∧ p.pid = pid ∧ heal_cpu_selects cfg henv.now exclude p = true := by
  intro l
  induction l with
  | nil => intro killed0 cnt pid h; exact Or.inl h
  | cons p rest ih =>
      intro killed0 cnt pid h
      unfold heal_cpu_loop at h
      by_cases hlim : cfg.self_heal_cpu_kill_limit ≤ cnt
      · rw [if_pos hlim] at h; exact Or.inl h
      · rw [if_neg hlim] at h
        by_cases hsel : heal_cpu_selects cfg henv.now exclude p = true
        · rw [if_pos hsel] at h
          by_cases hok : (run_subprocess_ok (henv.sub ["kill", toString p.pid])
              ["kill", toString p.pid] false true false Option.none 60).1 = true
          · rw [if_pos hok] at h
            rcases ih _ _ pid h with hin | ⟨q, hq, hqp, hqsel⟩
            · rcases List.mem_append.mp hin with hin0 | hinp
              · exact Or.inl hin0
              · exact Or.inr ⟨p, by simp, (by simpa using hinp : pid = p.pid).symm, hsel⟩
            · exact Or.inr ⟨q, by simp [hq], hqp, hqsel⟩
          · rw [if_neg hok] at h
            rcases ih _ _ pid h with hin | ⟨q, hq, hqp, hqsel⟩
            · exact Or.inl hin
            · exact Or.inr ⟨q, by simp [hq], hqp, hqsel⟩
        · rw [if_neg hsel] at h
          rcases ih _ _ pid h with hin | ⟨q, hq, hqp, hqsel⟩
          · exact Or.inl hin
          · exact Or.inr ⟨q, by simp [hq], hqp, hqsel⟩

/-- A cpu diagnostics value carrying the issue type `_heal_cpu` looks up, so
that the kill loop is actually reached. -/
def diagC10 : Health :=
  { status := "CRITICAL", issues := [⟨"HIGH_CPU_USAGE", .num 99, "cpu pegged"⟩] }

/-- A configuration whose exclusion set contains the empty string, and a
process table whose CPU hog is literally named `""`. -/
def cfgC10x : Config :=
  { default_config with
    self_heal_cpu_enabled := true
    self_heal_cpu_threshold := 50
    self_heal_cpu_exclude_procs := [""] }

def henvC10x : HealEnv :=
  { procs := [⟨902, some "", some 99, "bob", 0⟩]
    now := 100
    zombies := []
    isdir := fun _ => false
    sub := fun _ =>
      { euid := 1000, sudo_path := some "/usr/bin/sudo",
        which := fun _ => some "/usr/bin/kill", outcome := .completes 0 "" "" } }

/-- Concrete run refuting C10 as stated: `_heal_cpu` computes
`(pinfo['name'] or 'unknown').lower()` (source line 424), which rewrites an
empty name to `'unknown'` **before** the exclusion test, so with `""` in the
exclusion set it terminates a process whose actual name (`""`) matches an
exclusion entry case-insensitively. -/
theorem heal_cpu_kills_process_with_excluded_empty_name :
    heal_cpu cfgC10x henvC10x diagC10 =
      some (HealAction.mitigateCpu [902] 1 "ATTEMPTED") ∧
    902 ∈ killed_pids_of (HealAction.mitigateCpu [902] 1 "ATTEMPTED") ∧
    (∃ p ∈ henvC10x.procs, p.pid = 902 ∧ p.name = some "" ∧
      ∃ e ∈ cfgC10x.self_heal_cpu_exclude_procs, py_lower "" = py_lower e) := by
  refine ⟨by decide, by decide, by decide⟩

/-- C10 (amended): For every configuration, process table and cpu
diagnostics, every pid that `_heal_cpu` terminates comes from a process of
the table whose **effective** name — `pinfo['name']` with `None` and the
empty string replaced by `'unknown'` — is, for every entry of the configured
exclusion set, different from that entry's lowercased form, regardless of
its CPU share.  (A process with an empty name is treated as named
`'unknown'`, so an empty-string exclusion entry does not protect it — see
the counterexample above.) -/
theorem heal_cpu_never_kills_excluded (cfg : Config) (henv : HealEnv) (diag : Health)
    (act : HealAction) (hact : heal_cpu cfg henv diag = some act) (pid : Nat)
    (hpid : pid ∈ killed_pids_of act) :
    ∃ p, p ∈ henv.procs ∧ p.pid = pid ∧
      ∀ e ∈ cfg.self_heal_cpu_exclude_procs,
        py_lower (py_name_or_unknown p.name) ≠ py_lower e := by
  unfold heal_cpu at hact
  by_cases hen : cfg.self_heal_cpu_enabled
  · rw [if_neg (by simpa using hen)] at hact
    by_cases hgate : ival_lt
        (((diag.issues.find? (fun i => i.type == "HIGH_CPU_USAGE")).map Issue.value).getD
          (.num 0)) cfg.self_heal_cpu_threshold = true
    · rw [if_pos hgate] at hact; cases hact
    · rw [if_neg hgate] at hact
      obtain rfl : HealAction.mitigateCpu
          (heal_cpu_loop cfg henv (cfg.self_heal_cpu_exclude_procs.map py_lower)
            (sortCpuDesc (henv.procs.filter (fun p => p.cpu_percent.isSome))) [] 0)
          (heal_cpu_loop cfg henv (cfg.self_heal_cpu_exclude_procs.map py_lower)
            (sortCpuDesc (henv.procs.filter (fun p => p.cpu_percent.isSome))) [] 0).length
          "ATTEMPTED" = act := by
        exact Option.some.inj hact
      rcases heal_cpu_loop_killed_sources cfg henv
          (cfg.self_heal_cpu_exclude_procs.map py_lower)
          (sortCpuDesc (henv.procs.filter (fun p => p.cpu_percent.isSome))) [] 0 pid
          (by simpa [killed_pids_of] using hpid) with hin | ⟨p, hp, hppid, hpsel⟩
      · simp at hin
      · refine ⟨p, ?_, hppid, ?_⟩
        · have := (mem_sortCpuDesc p _).mp hp
          exact (List.mem_filter.mp this).1
        · intro e he heq
          have hnotin : py_lower (py_name_or_unknown p.name) ∉
              cfg.self_heal_cpu_exclude_procs.map py_lower := by
            simp only [heal_cpu_selects, Bool.and_eq_true, decide_eq_true_eq] at hpsel
            exact hpsel.1.1.2
          exact hnotin (List.mem_map.mpr ⟨e, he, heq.symm⟩)
  · rw [if_pos (by simpa using hen)] at hact; cases hact

def cfgC10 : Config :=
  { default_config with self_heal_cpu_enabled := true, self_heal_cpu_threshold := 50 }

def henvC10 : HealEnv :=
  { procs := [⟨901, some "stress", some 99, "bob", 0⟩]
    now := 100
    zombies := []
    isdir := fun _ => false
    sub := fun _ =>
      { euid := 1000, sudo_path := some "/usr/bin/sudo",
        which := fun _ => some "/usr/bin/kill", outcome := .completes 0 "" "" } }

theorem heal_cpu_never_kills_excluded_witness :
    (heal_cpu cfgC10 henvC10 diagC10 = some (HealAction.mitigateCpu [901] 1 "ATTEMPTED") ∧
     901 ∈ killed_pids_of (HealAction.mitigateCpu [901] 1 "ATTEMPTED")) ∧
    (∃ p, p ∈ henvC10.procs ∧ p.pid = 901 ∧
      ∀ e ∈ cfgC10.self_heal_cpu_exclude_procs,
        py_lower (py_name_or_unknown p.name) ≠ py_lower e) :=
  ⟨⟨by decide, by decide⟩,
   heal_cpu_never_kills_excluded cfgC10 henvC10 diagC10
     (HealAction.mitigateCpu [901] 1 "ATTEMPTED") (by decide) 901 (by decide)⟩

/-! ## C5: an early short-circuit starves `perform_self_healing` of keys -/

/-- C5: For every diagnostics value produced by `diagnose_system` in which a
domain ordered before `network` (index < 4 in the fixed order cpu, memory,
disk, processes, network, temperature) evaluated to ERROR and triggered the
short-circuit, the checks mapping lacks all later domains, and — with
self-healing enabled — `perform_self_healing`, which indexes
`checks["cpu"]`, `checks["memory"]`, `checks["processes"]`, `checks["disk"]`
and `checks["network"]` unconditionally, raises a `KeyError` instead of
completing with a list of healing actions, so the cycle's healing step is
abandoned by the loop's catch-all handler. -/
theorem short_circuit_starves_self_healing (cfg : Config) (env : DiagEnv)
    (henv : HealEnv) (st : StateDict) (i : Nat)
    (hen : cfg.self_healing_enabled = true)
    (hidx : first_error_idx (domainResults cfg env st) = some i)
    (hlt : i < 4) :
    (∀ k ∈ domain_order.drop (i + 1),
        assocFind (diagnose_system cfg env st).checks k = Option.none) ∧
    (∃ e, perform_self_healing cfg henv (diagnose_system cfg env st) = Except.error e ∧
        run_healing_step cfg henv (diagnose_system cfg env st) = HealStep.abandoned e) := by
  have hagg := aggregate_spec (domainResults cfg env st) "NOMINAL" (by decide)
    (domainResults_status_S4 cfg env st)
  rw [hidx] at hagg
  have hchecks : (diagnose_system cfg env st).checks =
      (domainResults cfg env st).take (i + 1) := by
    simp [diagnose_system, hagg]
  have hov : (diagnose_system cfg env st).overall_status = "ERROR" := by
    simp [diagnose_system, hagg]
  interval_cases i
  · refine ⟨?_, ?_⟩
    · intro k hk
      have hk2 : k ∈ ["memory", "disk", "processes", "network", "temperature"] := by
        simpa [domain_order] using hk
      fin_cases hk2 <;> simp [hchecks, domainResults, assocFind]
    · have hperf : perform_self_healing cfg henv (diagnose_system cfg env st) =
          Except.error "KeyError: memory" := by
        simp [perform_self_healing, hen, py_checks_index, hchecks, domainResults, assocFind]
      exact ⟨_, hperf, by simp [run_healing_step, hov, hperf]⟩
  · refine ⟨?_, ?_⟩
    · intro k hk
      have hk2 : k ∈ ["disk", "processes", "network", "temperature"] := by
        simpa [domain_order] using hk
      fin_cases hk2 <;> simp [hchecks, domainResults, assocFind]
    · have hperf : perform_self_healing cfg henv (diagnose_system cfg env st) =
          Except.error "KeyError: processes" := by
        simp [perform_self_healing, hen, py_checks_index, hchecks, domainResults, assocFind]
      exact ⟨_, hperf, by simp [run_healing_step, hov, hperf]⟩
  · refine ⟨?_, ?_⟩
    · intro k hk
      have hk2 : k ∈ ["processes", "network", "temperature"] := by
        simpa [domain_order] using hk
      fin_cases hk2 <;> simp [hchecks, domainResults, assocFind]
    · have hperf : perform_self_healing cfg henv (diagnose_system cfg env st) =
          Except.error "KeyError: processes" := by
        simp [perform_self_healing, hen, py_checks_index, hchecks, domainResults, assocFind]
      exact ⟨_, hperf, by simp [run_healing_step, hov, hperf]⟩
  · refine ⟨?_, ?_⟩
    · intro k hk
      have hk2 : k ∈ ["network", "temperature"] := by
        simpa [domain_order] using hk
      fin_cases hk2 <;> simp [hchecks, domainResults, assocFind]
    · have hperf : perform_self_healing cfg henv (diagnose_system cfg env st) =
          Except.error "KeyError: network" := by
        simp [perform_self_healing, hen, py_checks_index, hchecks, domainResults, assocFind]
      exact ⟨_, hperf, by simp [run_healing_step, hov, hperf]⟩

def envC5 : DiagEnv := { net_probe := Option.none, has_sensors := false }

/-- A snapshot whose cpu sub-dict is missing, so the cpu domain short-circuits
the diagnostics at index 0. -/
def stC5 : StateDict :=
  { cpu := Option.none
    memory := some { virtual_percent := some 10, swap_percent := some 10 }
    disk := some { percent := some 10, path := some "/" }
    processes := some { total := some 10, zombie := some 0 }
    network := some { network_counters := Option.none }
    temperature := some [] }

def henvC5 : HealEnv :=
  { procs := [], now := 0, zombies := [], isdir := fun _ => false,
    sub := fun _ =>
      { euid := 0, sudo_path := Option.none, which := fun _ => Option.none,
        outcome := .exn "unused" } }

theorem short_circuit_starves_self_healing_witness :
    (default_config.self_healing_enabled = true ∧
     first_error_idx (domainResults default_config envC5 stC5) = some 0 ∧ 0 < 4) ∧
    ((∀ k ∈ domain_order.drop (0 + 1),
        assocFind (diagnose_system default_config envC5 stC5).checks k = Option.none) ∧
     (∃ e, perform_self_healing default_config henvC5
            (diagnose_system default_config envC5 stC5) = Except.error e ∧
        run_healing_step default_config henvC5 (diagnose_system default_config envC5 stC5) =
          HealStep.abandoned e)) :=
  ⟨⟨by decide, by decide, by decide⟩,
   short_circuit_starves_self_healing default_config envC5 henvC5 stC5 0
     (by decide) (by decide) (by decide)⟩

/-! ## C6: the collection-error branch of `run()` (source lines 544-545)

`run()` line 545:
`if "error" in system_state: ...; time.sleep(self.config['monitor_interval']); continue  # Short sleep on error`
— the branch skips the rest of the cycle but sleeps the **full**
`monitor_interval` (the trailing comment, and the spec, say a short retry
delay).  The normal path (lines 558-560) sleeps
`max(1.0, monitor_interval - cycle_duration)`. -/

structure CycleDelay where
  skipped_rest : Bool
  sleep_before_next : ℚ
  deriving Repr

def run_cycle_delay (cfg : Config) (collect_error : Bool) (cycle_duration : ℚ) : CycleDelay :=
  if collect_error then
    { skipped_rest := true, sleep_before_next := cfg.monitor_interval }
  else
    { skipped_rest := false,
      sleep_before_next := max 1 (cfg.monitor_interval - cycle_duration) }

/-- C6 (code bug): on a collection error the loop does skip the rest of the
cycle, but the delay before the next cycle equals the full `monitor_interval`
— it is not shorter than the monitor interval, contradicting the in-line
comment "Short sleep on error" and the spec's short retry delay. -/
theorem collection_error_sleeps_full_interval (cfg : Config) (dur : ℚ) :
    (run_cycle_delay cfg true dur).skipped_rest = true ∧
    (run_cycle_delay cfg true dur).sleep_before_next = cfg.monitor_interval ∧
    ¬ (run_cycle_delay cfg true dur).sleep_before_next < cfg.monitor_interval := by
  refine ⟨rfl, rfl, ?_⟩
  simp [run_cycle_delay]

/-! ## Config validation over raw JSON-like values
(`CONFIG_SCHEMA`, lines 37-77; `_load_and_validate_config`, lines 141-212)

`raw : String → Option PyVal` is the key lookup of the loaded config file
after `config = defaults.copy(); config.update(loaded_config)` — i.e. `raw k`
is the file's value for `k` when present (a missing/corrupt file is
`raw = fun _ => none`, yielding all defaults).  Finite JSON numbers are exact
rationals; Python's `json` also accepts the non-finite float `NaN` by
default, represented by its own constructor because NaN compares `False`
against every bound (`inf`/`-inf`, also accepted, do order normally and
behave like very large rationals for every check performed here). -/

inductive PyVal where
  | none
  | bool (b : Bool)
  | int (n : Int)
  | float (q : ℚ)
  | floatNan
  | str (s : String)
  | list (l : List PyVal)
  | dict

inductive SchemaType where
  | int | float | str | bool | list
  deriving DecidableEq, Repr

structure SchemaEntry where
  type : SchemaType
  min : Option ℚ
  max : Option ℚ
  enum : Option (List String)
  deriving DecidableEq, Repr

def intS (mn mx : Option ℚ) : SchemaEntry := ⟨.int, mn, mx, Option.none⟩
def floatS (mn mx : Option ℚ) : SchemaEntry := ⟨.float, mn, mx, Option.none⟩
def strS : SchemaEntry := ⟨.str, Option.none, Option.none, Option.none⟩
def strEnumS (es : List String) : SchemaEntry := ⟨.str, Option.none, Option.none, some es⟩
def boolS : SchemaEntry := ⟨.bool, Option.none, Option.none, Option.none⟩
def listS : SchemaEntry := ⟨.list, Option.none, Option.none, Option.none⟩

/-- `CONFIG_SCHEMA` (source lines 37-77), in insertion order. -/
def CONFIG_SCHEMA : List (String × SchemaEntry) :=
  [("monitor_interval", intS (some 10) Option.none),
   ("log_level", strEnumS ["DEBUG", "INFO", "WARNING", "ERROR", "CRITICAL"]),
   ("log_file", strS),
   ("cpu_threshold", floatS (some 0) (some 100)),
   ("memory_threshold", floatS (some 0) (some 100)),
   ("disk_threshold", floatS (some 0) (some 100)),
   ("swap_threshold", floatS (some 0) (some 100)),
   ("zombie_threshold", intS (some 0) Option.none),
   ("temp_alert_threshold", floatS Option.none Option.none),
   ("network_connectivity_host", strS),
   ("network_connectivity_port", intS (some 1) (some 65535)),
   ("network_connectivity_timeout", intS (some 1) Option.none),
   ("cpu_permit_man_update", floatS (some 0) (some 100)),
   ("mandb_min_interval_hours", intS (some 1) Option.none),
   ("email_alerts_enabled", boolS),
   ("email_recipient", strS),
   ("email_sender", strS),
   ("smtp_host", strS),
   ("smtp_port", intS (some 1) (some 65535)),
   ("ollama_enabled", boolS),
   ("ollama_host", strS),
   ("ollama_model", strS),
   ("ollama_init_timeout_seconds", intS (some 10) Option.none),
   ("self_healing_enabled", boolS),
   ("self_heal_cpu_enabled", boolS),
   ("self_heal_cpu_threshold", floatS (some 0) (some 100)),
   ("self_heal_cpu_kill_limit", intS (some 0) Option.none),
   ("self_heal_cpu_exclude_procs", listS),
   ("self_heal_memory_enabled", boolS),
   ("self_heal_memory_clear_caches", boolS),
   ("self_heal_processes_enabled", boolS),
   ("self_heal_processes_cleanup_zombies", boolS),
   ("self_heal_disk_enabled", boolS),
   ("self_heal_disk_log_path", strS),
   ("self_heal_disk_log_max_age_days", intS (some 1) Option.none),
   ("self_heal_disk_tmp_path", strS),
   ("self_heal_disk_tmp_max_age_days", intS (some 1) Option.none),
   ("self_heal_network_enabled", boolS),
   ("self_heal_network_service_names", listS)]

/-- The defaults dict (source lines 143-156); `avail` is `OLLAMA_AVAILABLE`
(the default of `ollama_enabled`).  Returns `PyVal.none` off-schema (never
queried there). -/
def config_defaults (avail : Bool) : String → PyVal := fun k =>
  if k = "monitor_interval" then .int 60
  else if k = "log_level" then .str "INFO"
  else if k = "log_file" then .str "/var/log/aion/system_agent.log"
  else if k = "cpu_threshold" then .float 85
  else if k = "memory_threshold" then .float 90
  else if k = "disk_threshold" then .float 85
  else if k = "swap_threshold" then .float 75
  else if k = "zombie_threshold" then .int 10
  else if k = "temp_alert_threshold" then .float 80
  else if k = "network_connectivity_host" then .str "8.8.8.8"
  else if k = "network_connectivity_port" then .int 53
  else if k = "network_connectivity_timeout" then .int 3
  else if k = "cpu_permit_man_update" then .float 50
  else if k = "mandb_min_interval_hours" then .int 6
  else if k = "email_alerts_enabled" then .bool false
  else if k = "email_recipient" then .str ""
  else if k = "email_sender" then .str "system-agent@aion.chroot.localhost"
  else if k = "smtp_host" then .str "localhost"
  else if k = "smtp_port" then .int 25
  else if k = "ollama_enabled" then .bool avail
  else if k = "ollama_host" then .str "http://127.0.0.1:11434"
  else if k = "ollama_model" then .str "gemma:2b"
  else if k = "ollama_init_timeout_seconds" then .int 180
  else if k = "self_healing_enabled" then .bool true
  else if k = "self_heal_cpu_enabled" then .bool false
  else if k = "self_heal_cpu_threshold" then .float 95
  else if k = "self_heal_cpu_kill_limit" then .int 2
  else if k = "self_heal_cpu_exclude_procs" then
    .list [.str "systemd", .str "kthreadd", .str "sshd", .str "rsyslogd", .str "journald",
           .str "dbus-daemon", .str "login", .str "agetty", .str "containerd", .str "dockerd",
           .str "kubelet", .str "supervisord", .str "python", .str "aion_system_agent",
           .str "ollama"]
  else if k = "self_heal_memory_enabled" then .bool true
  else if k = "self_heal_memory_clear_caches" then .bool true
  else if k = "self_heal_processes_enabled" then .bool true
  else if k = "self_heal_processes_cleanup_zombies" then .bool true
  else if k = "self_heal_disk_enabled" then .bool true
  else if k = "self_heal_disk_log_path" then .str "/var/log"
  else if k = "self_heal_disk_log_max_age_days" then .int 30
  else if k = "self_heal_disk_tmp_path" then .str "/tmp"
  else if k = "self_heal_disk_tmp_max_age_days" then .int 7
  else if k = "self_heal_network_enabled" then .bool false
  else if k = "self_heal_network_service_names" then
    .list [.str "networking", .str "NetworkManager", .str "systemd-networkd"]
  else .none

/-- Python `isinstance(value, expected_type)`: note `isinstance(True, int)`
is `True` (bool is a subclass of int), while `isinstance(1, float)` and
`isinstance(True, float)` are `False`. -/
def pyIsinstance : PyVal → SchemaType → Bool
  | .bool _, .int => true
  | .int _, .int => true
  | .float _, .float => true
  | .floatNan, .float => true
  | .str _, .str => true
  | .bool _, .bool => true
  | .list _, .list => true
  | _, _ => false

/-- The type test of the validator (source lines 183-186): isinstance, with
the special case accepting an int (hence also a bool) where a float is
expected. -/
def type_check_ok (v : PyVal) (t : SchemaType) : Bool :=
  pyIsinstance v t || (t == .float && pyIsinstance v .int)

/-- Numeric view for the `<`/`>` min/max comparisons; only values that passed
the type check of a min/max-carrying (numeric) schema entry reach these
comparisons, so only the first three cases occur. -/
def py_num : PyVal → ℚ
  | .bool b => if b then 1 else 0
  | .int n => (n : ℚ)
  | .float q => q
  | _ => 0

/-- Python `value < bound` for the min check (source line 188): every
min/max-carrying schema entry is numeric and type-checked first, so `value`
here is a bool, int or float; a float NaN compares `False` against any
bound. -/
def py_lt_num (v : PyVal) (m : ℚ) : Bool :=
  match v with
  | .floatNan => false
  | _ => decide (py_num v < m)

/-- Python `value > bound` for the max check (source line 189). -/
def py_gt_num (v : PyVal) (m : ℚ) : Bool :=
  match v with
  | .floatNan => false
  | _ => decide (py_num v > m)

/-- Python `str.upper()`. -/
def py_upper (s : String) : String := ⟨s.data.map Char.toUpper⟩

/-- `str(value).upper()` in the enum check (source line 190): every
enum-carrying schema entry is str-typed and the check runs only after the
type check passed, so only the `.str` case occurs. -/
def py_str_upper : PyVal → String
  | .str s => py_upper s
  | _ => ""

/-- `all(isinstance(item, str) for item in value)` (source line 192);
reached only for list-typed entries. -/
def list_elems_str : PyVal → Bool
  | .list l => l.all (fun x => match x with | .str _ => true | _ => false)
  | _ => true

/-- The per-key validation of `_load_and_validate_config` (source lines
173-198): merged value (file value, `None` replaced by the default), then
type / min / max / enum / list-element checks in `elif` order; returns the
`valid` flag and the stored value (the default on any failure).  The dead
`elif expected_type is list and not isinstance(value, list)` branch (line
191) is unreachable after the type check and is omitted. -/
def validate_checks (dflt value : PyVal) (sch : SchemaEntry) : Bool × PyVal :=
  if ¬ type_check_ok value sch.type then (false, dflt)
  else if sch.min.elim false (fun m => py_lt_num value m) then (false, dflt)
  else if sch.max.elim false (fun m => py_gt_num value m) then (false, dflt)
  else if sch.enum.elim false (fun es => decide (py_str_upper value ∉ es)) then (false, dflt)
  else if sch.type == .list && ¬ list_elems_str value then (false, dflt)
  else (true, value)

def validate_key (avail : Bool) (raw : String → Option PyVal) (key : String)
    (sch : SchemaEntry) : Bool × PyVal :=
  let dflt := config_defaults avail key
  -- value = config.get(key); if value is None: value = defaults.get(key)
  let value := match raw key with
    | some PyVal.none => dflt
    | some v => v
    | Option.none => dflt
  validate_checks dflt value sch

/-- Python truthiness for the two post-validation tests (which read a
bool-typed and a str-typed validated value). -/
def py_truthy : PyVal → Bool
  | .bool b => b
  | .str s => !(s == "")
  | .int n => !(n == 0)
  | .float q => !(q == 0)
  | .floatNan => true
  | .list l => !l.isEmpty
  | .dict => false
  | .none => false

/-- `[p.lower() for p in ...]` on the (validated, all-string) exclusion list
(source line 210). -/
def py_lower_val : PyVal → PyVal
  | .list l => .list (l.map (fun v => match v with | .str s => .str (py_lower s) | x => x))
  | x => x

/-- The schema-keyed dict after per-key validation (source line 198). -/
def validated_base (avail : Bool) (raw : String → Option PyVal) : List (String × PyVal) :=
  CONFIG_SCHEMA.map (fun kv => (kv.1, (validate_key avail raw kv.1 kv.2).2))

/-- Post-validation check 1 (source lines 201-203): email alerting enabled
with an empty recipient. -/
def email_off (avail : Bool) (raw : String → Option PyVal) : Bool :=
  py_truthy ((assocFind (validated_base avail raw) "email_alerts_enabled").getD PyVal.none) &&
  !(py_truthy ((assocFind (validated_base avail raw) "email_recipient").getD PyVal.none))

/-- Post-validation check 2 (source lines 204-206): ollama enabled but the
library is missing. -/
def ollama_off (avail : Bool) (raw : String → Option PyVal) : Bool :=
  !avail &&
  py_truthy ((assocFind (validated_base avail raw) "ollama_enabled").getD PyVal.none)

/-- The three post-validation mutations (source lines 201-210) applied to
one key's validated value. -/
def post_adjust (eo oo : Bool) (k : String) (v : PyVal) : PyVal :=
  if k == "email_alerts_enabled" && eo then .bool false
  else if k == "ollama_enabled" && oo then .bool false
  else if k == "self_heal_cpu_exclude_procs" then py_lower_val v
  else v

/-- `_load_and_validate_config` (source lines 141-212) as the final
validated dict. -/
def load_and_validate_config (avail : Bool) (raw : String → Option PyVal) :
    List (String × PyVal) :=
  (validated_base avail raw).map
    (fun kv => (kv.1, post_adjust (email_off avail raw) (ollama_off avail raw) kv.1 kv.2))

/-- The raw config `{"cpu_threshold": NaN}`: `json.load` accepts `NaN` by
default, `isinstance(nan, float)` holds, and both `nan < 0` and `nan > 100`
are `False` (source lines 188-189), so the NaN is stored as-is — an
out-of-order validated value, which is why the amended C2 carves floats'
NaN out of the min/max clause. -/
def rawNan : String → Option PyVal := fun k =>
  if k = "cpu_threshold" then some PyVal.floatNan else Option.none

theorem validated_cpu_threshold_stores_nan :
    assocFind (load_and_validate_config true rawNan) "cpu_threshold" =
      some PyVal.floatNan ∧
    (validate_key true rawNan "cpu_threshold" (floatS (some 0) (some 100))).1 = true := by
  exact ⟨rfl, rfl⟩

theorem run_subprocess_check_nonzero_is_soft_witness :
    (envC7.outcome = ProcOutcome.completes 1 "out" "err1" ∧ (1 : Int) ≠ 0 ∧
     py_truthy_str (envC7.which "x") = true) ∧
    (((1 : Int) = 0 → run_subprocess envC7 ["x"] true false false Option.none 60 =
        Except.ok (true, py_strip (py_strip "out" ++ "\n" ++ py_strip "err1"))) ∧
     ((1 : Int) ≠ 0 → run_subprocess envC7 ["x"] true false false Option.none 60 =
        Except.ok (false, py_strip "err1")) ∧
     (∀ e, run_subprocess envC7 ["x"] true false false Option.none 60 ≠ Except.error e)) :=
  ⟨⟨rfl, by decide, by decide⟩,
   run_subprocess_check_nonzero_is_soft envC7 "x" [] Option.none 60 1 "out" "err1"
     rfl (by decide)⟩

theorem run_subprocess_timeout_returns_failure_witness :
    (envC8.outcome = ProcOutcome.timesOut "PARTIALOUT" "" ∧
     py_truthy_str (envC8.which "slow") = true) ∧
    run_subprocess envC8 ["slow"] false false false Option.none 2 =
      Except.ok (false, "Cmd timed out. Stderr: " ++ py_strip "") :=
  ⟨⟨rfl, by decide⟩,
   run_subprocess_timeout_returns_failure envC8 "slow" [] false Option.none 2
     "PARTIALOUT" "" rfl (by decide)⟩
